import Mathlib

/-!
Shallow embedding of the TFT-Auto-Picker core (card data model, selection
strategies, template matcher, card recognizer and automation controller),
translated from the Python sources in `src/`, together with theorems
settling the specification claims.

Modelling conventions:
* Python `int` becomes `Int`, Python `float` values that the claims reason
  about (thresholds, confidences, times) become `ℚ`.
* Pixel buffers are not modelled; an image is reduced to its dimensions
  (`Img`), and every quantity the code derives from raw pixels via OpenCV
  (correlation surfaces, colour-band ratios, cost estimates) is passed in
  as an explicit oracle argument.
* Stateful Python methods become pure functions from the old state (plus
  oracle inputs) to the returned value paired with the new state.
-/

namespace TFT

/-- An image reduced to its dimensions; `size = 0` models an empty capture. -/
structure Img where
  h : Nat
  w : Nat
deriving DecidableEq, Repr

/-- Number of pixels, mirroring `ndarray.size` for the emptiness checks. -/
def Img.size (i : Img) : Nat := i.h * i.w

/-! ### core/card.py -/

/-- Source `CardRarity` enum from `src/core/card.py`. -/
inductive CardRarity where
  | ONE_COST
  | TWO_COST
  | THREE_COST
  | FOUR_COST
  | FIVE_COST
  | SPATULA
  | UNKNOWN
deriving DecidableEq, Repr

/-- Source `CardRarity.from_cost`: dictionary lookup `cost_map.get(cost, UNKNOWN)`. -/
def CardRarity.from_cost (cost : Int) : CardRarity :=
  if cost = 1 then .ONE_COST
  else if cost = 2 then .TWO_COST
  else if cost = 3 then .THREE_COST
  else if cost = 4 then .FOUR_COST
  else if cost = 5 then .FIVE_COST
  else .UNKNOWN

/-- The `Card` data class from `src/core/card.py`. The `classes` and
`template_path` fields are carried as plain data; `position` is always a
pair because `__init__` replaces a missing position by `(0, 0)`. -/
structure Card where
  name : String
  cost : Int
  rarity : CardRarity
  classes : List String
  template_path : String
  confidence : ℚ
  position : Int × Int
  is_selected : Bool
  shop_index : Option Nat
deriving DecidableEq, Repr

/-- Source `Card.__init__`: rarity is derived from cost, a `None` position becomes
`(0, 0)`, the card starts unselected with no shop index. -/
def Card.make (name : String) (cost : Int) (classes : List String)
    (template_path : String) (confidence : ℚ)
    (position : Option (Int × Int)) : Card :=
  { name := name
    cost := cost
    rarity := CardRarity.from_cost cost
    classes := classes
    template_path := template_path
    confidence := confidence
    position := position.getD (0, 0)
    is_selected := false
    shop_index := none }

/-- Source `Card.__eq__`: equality is decided by the `name` field alone. -/
def Card.beq (a b : Card) : Bool := a.name == b.name

/-- Source `Card.__hash__`: `hash(self.name)`. -/
def Card.hashName (c : Card) : UInt64 := hash c.name

/-- Source `Card.select`. -/
def Card.select (c : Card) : Card := { c with is_selected := true }

/-- Source `Card.set_position`. -/
def Card.set_position (c : Card) (x y : Int) : Card :=
  { c with position := (x, y) }

/-! ### core/game_state.py -/

/-- Source `GamePhase` enum from `src/core/game_state.py`. -/
inductive GamePhase where
  | UNKNOWN
  | LOBBY
  | SHOPPING
  | PICKING
  | BATTLING
  | GAME_OVER
  | PAUSED
deriving DecidableEq, Repr

/-- A shop-slot record as appended by `CardRecognizer.recognize_cards`. -/
structure ShopSlot where
  index : Nat
  position : Int × Int
  has_card : Bool
deriving DecidableEq, Repr

/-- Source `GameState` from `src/core/game_state.py`. The wall-clock
`last_update_time` bookkeeping is not modelled; no claim mentions it. -/
structure GameState where
  phase : GamePhase
  available_cards : List Card
  gold : Int
  level : Int
  shop_slots : List ShopSlot
  is_active : Bool
deriving DecidableEq, Repr

/-- Source `GameState.__init__`. -/
def GameState.init : GameState :=
  { phase := .UNKNOWN, available_cards := [], gold := 0, level := 1,
    shop_slots := [], is_active := false }

/-- Source `GameState.update_phase` (timestamp bookkeeping elided). -/
def GameState.update_phase (gs : GameState) (new_phase : GamePhase) : GameState :=
  { gs with phase := new_phase }

/-- Source `GameState.set_shop_phase`. -/
def GameState.set_shop_phase (gs : GameState) : GameState :=
  { gs.update_phase .SHOPPING with is_active := true }

/-- Source `GameState.set_lobby_phase`. -/
def GameState.set_lobby_phase (gs : GameState) : GameState :=
  { gs.update_phase .LOBBY with is_active := false }

/-! ### core/strategy.py -/

/-- The configuration fields of `PriorityStrategy`. -/
structure PriorityStrategy where
  priority_list : List String
  max_cost : Int
  prefer_higher_cost : Bool
deriving DecidableEq, Repr

/-- Source `PriorityStrategy.get_priority_index`: `list.index` returns the first
index of the name, and the `ValueError` branch returns `-1`. -/
def PriorityStrategy.get_priority_index (s : PriorityStrategy)
    (card_name : String) : Int :=
  match s.priority_list.findIdx? (fun y => y == card_name) with
  | some i => (i : Int)
  | none => -1

/-- The score assigned to a card by `PriorityStrategy.select_card`:
`(len(priority_list) - priority_index) + (cost * 10 if prefer_higher_cost else 0)`. -/
def PriorityStrategy.score (s : PriorityStrategy) (c : Card) : Int :=
  ((s.priority_list.length : Int) - s.get_priority_index c.name) +
    (if s.prefer_higher_cost then c.cost * 10 else 0)

/-- Source `scored_cards.sort(key=score, reverse=True)` is a stable descending
sort, so `scored_cards[0]` is the first element attaining the maximal
score; this fold computes exactly that element. -/
def first_max (x : Card × Int) (xs : List (Card × Int)) : Card × Int :=
  xs.foldl (fun best y => if y.2 > best.2 then y else best) x

/-- Source `PriorityStrategy.select_card` from `src/core/strategy.py`
(the `game_state` argument is unused by the Python body too). -/
def PriorityStrategy.select_card (s : PriorityStrategy)
    (available_cards : List Card) (_game_state : GameState) : Option Card :=
  if available_cards.isEmpty then none
  else
    let filtered_cards := available_cards.filter (fun c => c.cost ≤ s.max_cost)
    if filtered_cards.isEmpty then none
    else
      let scored_cards := filtered_cards.filterMap (fun card =>
        let priority_index := s.get_priority_index card.name
        if priority_index ≥ 0 then some (card, s.score card) else none)
      match scored_cards with
      | [] => none
      | x :: xs => some (first_max x xs).1

/-- The configuration fields of `CompBuildingStrategy`. -/
structure CompBuildingStrategy where
  target_comp : List String
deriving DecidableEq, Repr

/-- Source `CompBuildingStrategy.select_card` from `src/core/strategy.py`:
filter to candidates whose name is in the target composition, return the
first one (the `game_state` argument is unused by the Python body too). -/
def CompBuildingStrategy.select_card (s : CompBuildingStrategy)
    (available_cards : List Card) (_game_state : GameState) : Option Card :=
  if available_cards.isEmpty then none
  else
    let priority_cards := available_cards.filter
      (fun c => s.target_comp.contains c.name)
    match priority_cards with
    | [] => none
    | c :: _ => some c

/-! ### modules/image_recognition/template_matcher.py -/

/-- The `MatchResult` dictionary built by `TemplateMatcher.match_template`.
Coordinates are `Nat` because they come from `np.where` indices. -/
structure MatchResult where
  name : String
  top_left : Nat × Nat
  bottom_right : Nat × Nat
  center : Nat × Nat
  confidence : ℚ
  width : Nat
  height : Nat
deriving DecidableEq, Repr

/-- Source `TemplateMatcher` state: the loaded templates (name, pixel-buffer
height and width — `template.shape[:2]`) and the default threshold. -/
structure TemplateMatcher where
  templates : List (String × Nat × Nat)
  default_threshold : ℚ
deriving DecidableEq, Repr

/-- Source `TemplateMatcher.__init__` with its default argument `0.8`. -/
def TemplateMatcher.init_default : TemplateMatcher :=
  { templates := [], default_threshold := 8/10 }

/-- A correlation surface: the entries of the `cv2.matchTemplate` output
array, enumerated as `(y, x)` index pairs with scores, in the row-major
order that `zip(*np.where(...))` traverses. -/
abbrev Surface := List ((Nat × Nat) × ℚ)

/-- Modelled external behaviour of `cv2.matchTemplate`: on an empty (or
zero-area) source it raises `cv2.error` — here `Except.error` — and
otherwise returns the correlation surface, which this embedding takes as
an oracle because pixel contents are not modelled. -/
def cv2_match_template (source : Img) (surface : Surface) :
    Except Unit Surface :=
  if source.size = 0 then .error () else .ok surface

/-- The match dictionary literal inside `match_template`: the loop binds
`for y, x in zip(*locations)`, so `p.1 = (y, x)` and `top_left = (x, y)`. -/
def mk_match (template_name : String) (h w : Nat)
    (p : (Nat × Nat) × ℚ) : MatchResult :=
  { name := template_name
    top_left := (p.1.2, p.1.1)
    bottom_right := (p.1.2 + w, p.1.1 + h)
    center := (p.1.2 + w / 2, p.1.1 + h / 2)
    confidence := p.2
    width := w
    height := h }

/-- Source `TemplateMatcher.match_template`. The Python threshold resolution is
`threshold = threshold or self.default_threshold`, so a missing *or zero*
(falsy) per-call threshold falls back to the default. The `try`/`except`
block around the cv2 call returns `[]` on a raised error. -/
def TemplateMatcher.match_template (m : TemplateMatcher) (source : Img)
    (surface : Surface) (template_name : String)
    (threshold : Option ℚ) : List MatchResult :=
  match m.templates.lookup template_name with
  | none => []
  | some hw =>
    let thr : ℚ := match threshold with
      | none => m.default_threshold
      | some v => if v = 0 then m.default_threshold else v
    match cv2_match_template source surface with
    | .error _ => []
    | .ok result =>
      (result.filter (fun p => decide (p.2 ≥ thr))).map
        (mk_match template_name hw.1 hw.2)

/-- Source `TemplateMatcher.match_all_templates`: resolves the threshold once
(`threshold or default`, same falsy rule), runs `match_template` for every
loaded template, and keeps only templates with a nonempty match list. -/
def TemplateMatcher.match_all_templates (m : TemplateMatcher) (source : Img)
    (surfaces : String → Surface) (threshold : Option ℚ) :
    List (String × List MatchResult) :=
  let thr : ℚ := match threshold with
    | none => m.default_threshold
    | some v => if v = 0 then m.default_threshold else v
  m.templates.filterMap (fun t =>
    let found := m.match_template source (surfaces t.1) t.1 (some thr)
    if found.isEmpty then none else some (t.1, found))

/-! ### modules/image_recognition/card_recognizer.py -/

/-- A shop-slot screen region (`{left, top, width, height}`). Width and
height are `Nat` so the `// 2` centre computation is Python floor
division. -/
structure ShopRegion where
  left : Int
  top : Int
  width : Nat
  height : Nat
deriving DecidableEq, Repr

/-- Source `CardRecognizer._recognize_single_card`: match the slot crop against
all templates at threshold `0.7`, track the best confidence strictly above
`0.7` with the running maximum of the nested loops, and build a fresh `Card`
for the winning template (cost comes from the colour-band estimate, which
is pixel-derived and therefore an oracle argument here). -/
def recognize_single_card (m : TemplateMatcher) (card_image : Img)
    (surfaces : String → Surface) (shop_index : Nat)
    (est_cost : Int) : Option Card :=
  let template_results := m.match_all_templates card_image surfaces (some (7/10))
  let best := template_results.foldl (fun acc tr =>
    tr.2.foldl (fun acc2 mr =>
      if mr.confidence > acc2.2 then (some (tr.1, mr.confidence), mr.confidence)
      else acc2) acc)
    ((none : Option (String × ℚ)), (7/10 : ℚ))
  match best.1 with
  | some nc =>
    some { Card.make nc.1 est_cost [] "" nc.2 none with shop_index := some shop_index }
  | none => none

/-- The slot centre written by `recognize_cards`:
`(left + width // 2, top + height // 2)`. -/
def region_center (r : ShopRegion) : Int × Int :=
  (r.left + (r.width / 2 : Nat), r.top + (r.height / 2 : Nat))

/-- The `for i, region in enumerate(self.shop_regions)` loop body of
`recognize_cards`: capture the slot (oracle `capture`), skip empty crops,
recognize, place the recognized card at the region centre and record the
slot. Appending per iteration equals consing here because the recursion
preserves slot order. -/
def recognize_slots (m : TemplateMatcher) (capture : Nat → Img)
    (surfaces : Nat → String → Surface) (est_cost : Nat → Int) :
    List (Nat × ShopRegion) → List Card × List ShopSlot
  | [] => ([], [])
  | (i, region) :: rest =>
    let card_image := capture i
    if card_image.size = 0 then
      recognize_slots m capture surfaces est_cost rest
    else
      match recognize_single_card m card_image (surfaces i) i (est_cost i) with
      | some card =>
        let placed := { card with position := region_center region }
        let tail := recognize_slots m capture surfaces est_cost rest
        (placed :: tail.1,
         { index := i, position := (region.left, region.top), has_card := true }
           :: tail.2)
      | none => recognize_slots m capture surfaces est_cost rest

/-- Source `CardRecognizer.recognize_cards`: empty screenshot returns `[]`
without touching the game state; otherwise `shop_slots` is reset, every
slot is processed, and `available_cards` is assigned the freshly built
list wholesale. -/
def recognize_cards (m : TemplateMatcher) (shop_regions : List ShopRegion)
    (gs : GameState) (screenshot : Img) (capture : Nat → Img)
    (surfaces : Nat → String → Surface) (est_cost : Nat → Int) :
    List Card × GameState :=
  if screenshot.size = 0 then ([], gs)
  else
    let built := recognize_slots m capture surfaces est_cost shop_regions.enum
    (built.1, { gs with available_cards := built.1, shop_slots := built.2 })

/-- Source `CardRecognizer.detect_shop_phase`: on an empty screenshot return
`False` leaving the phase untouched; otherwise compare the fraction of
currency-coloured pixels (pixel-derived, hence the oracle `gold_frac`)
against the fixed `0.02` ratio and set the phase accordingly. -/
def detect_shop_phase (gs : GameState) (screenshot : Img)
    (gold_frac : ℚ) : Bool × GameState :=
  if screenshot.size = 0 then (false, gs)
  else
    let is_shop := decide (gold_frac > 2/100)
    if is_shop then (true, gs.set_shop_phase)
    else (false, gs.set_lobby_phase)

/-- Source `CardRecognizer.refresh_and_recognize`: run phase detection, then do
per-slot recognition only when the resulting phase is `SHOPPING`,
otherwise return `[]`. The two captures (`detect_shot` for phase
detection, `screenshot` for recognition) are distinct oracle inputs. -/
def refresh_and_recognize (m : TemplateMatcher)
    (shop_regions : List ShopRegion) (gs : GameState)
    (detect_shot : Img) (gold_frac : ℚ) (screenshot : Img)
    (capture : Nat → Img) (surfaces : Nat → String → Surface)
    (est_cost : Nat → Int) : List Card × GameState :=
  let detected := detect_shop_phase gs detect_shot gold_frac
  if detected.2.phase = GamePhase.SHOPPING then
    recognize_cards m shop_regions detected.2 screenshot capture surfaces est_cost
  else
    ([], detected.2)

/-- Source `CardRecognizer.get_card_position`: `card.position` is always a
2-tuple (the constructor replaces `None` by `(0, 0)`) and any 2-tuple is
truthy in Python, so the first branch always returns it; the
`shop_index` fallback and the `(0, 0)` default are unreachable for cards
built by this code. -/
def get_card_position (_shop_regions : List ShopRegion) (card : Card) :
    Int × Int :=
  card.position

/-! ### modules/automation/game_automator.py -/

/-- Source `AutoPickerState` enum (the `DETECTING` label exists but is never
assigned by any transition). -/
inductive AutoPickerState where
  | STOPPED
  | RUNNING
  | PAUSED
  | DETECTING
deriving DecidableEq, Repr

/-- Source `GameAutomator.DEFAULT_PICK_COOLDOWN = 0.5`. -/
def DEFAULT_PICK_COOLDOWN : ℚ := 1/2

/-- Source `GameAutomator.DEFAULT_DETECT_INTERVAL = 0.3`. -/
def DEFAULT_DETECT_INTERVAL : ℚ := 3/10

/-- The controller-owned mutable state of `GameAutomator`. The
`threading.Event` flags become booleans; `spawned_loops` counts how many
monitor-loop threads `threading.Thread(...).start()` has ever spawned
(the constructor/`start` never terminates an existing loop — only setting
`stop_event` does, so a spawn with `stop_event` kept clear leaves any
previously spawned loop running alongside the new one). -/
structure AState where
  auto_picker_state : AutoPickerState
  stop_event : Bool
  pause_event : Bool
  spawned_loops : Nat
  pick_cooldown : ℚ
  detect_interval : ℚ
  pick_count : Nat
  total_picks : Nat
  last_pick_time : Option ℚ
deriving DecidableEq, Repr

/-- Source `GameAutomator.__init__` (controller-owned fields). -/
def AState.init : AState :=
  { auto_picker_state := .STOPPED
    stop_event := false
    pause_event := false
    spawned_loops := 0
    pick_cooldown := DEFAULT_PICK_COOLDOWN
    detect_interval := DEFAULT_DETECT_INTERVAL
    pick_count := 0
    total_picks := 0
    last_pick_time := none }

/-- Source `GameAutomator.start_auto_picker`: refuse when already `RUNNING`,
otherwise clear both events, enter `RUNNING` and spawn a monitor thread. -/
def start_auto_picker (s : AState) : Bool × AState :=
  if s.auto_picker_state = .RUNNING then (false, s)
  else
    (true,
     { s with stop_event := false
              pause_event := false
              auto_picker_state := .RUNNING
              spawned_loops := s.spawned_loops + 1 })

/-- Source `GameAutomator.stop_auto_picker`: refuse when already `STOPPED`,
otherwise set the stop event, enter `STOPPED` and join the thread with a
bounded timeout (the join does not mutate controller fields). -/
def stop_auto_picker (s : AState) : Bool × AState :=
  if s.auto_picker_state = .STOPPED then (false, s)
  else (true, { s with stop_event := true, auto_picker_state := .STOPPED })

/-- Source `GameAutomator.pause_auto_picker`: refuse unless `RUNNING`. -/
def pause_auto_picker (s : AState) : Bool × AState :=
  if s.auto_picker_state ≠ .RUNNING then (false, s)
  else (true, { s with pause_event := true, auto_picker_state := .PAUSED })

/-- Source `GameAutomator.resume_auto_picker`: refuse unless `PAUSED`. -/
def resume_auto_picker (s : AState) : Bool × AState :=
  if s.auto_picker_state ≠ .PAUSED then (false, s)
  else (true, { s with pause_event := false, auto_picker_state := .RUNNING })

/-- Source `GameAutomator._can_pick`: first pick is always allowed; afterwards
the elapsed time since the last successful pick must reach the cooldown. -/
def can_pick (s : AState) (now : ℚ) : Bool :=
  match s.last_pick_time with
  | none => true
  | some t => decide (now - t ≥ s.pick_cooldown)

/-- Source `GameAutomator._pick_card`. The click outcome of the external mouse
controller is the oracle `click_ok`. Returns
(click dispatched to the actuator, method return value, updated card,
updated controller state): a `(0, 0)` position aborts before any click;
a failed click changes nothing; a successful click marks the card
selected, bumps both counters and advances `last_pick_time`. -/
def pick_card (s : AState) (shop_regions : List ShopRegion) (card : Card)
    (now : ℚ) (click_ok : Bool) : Bool × Bool × Card × AState :=
  let position := get_card_position shop_regions card
  if position = (0, 0) then (false, false, card, s)
  else if click_ok then
    (true, true, card.select,
     { s with pick_count := s.pick_count + 1
              total_picks := s.total_picks + 1
              last_pick_time := some now })
  else (true, false, card, s)

/-- Source `GameAutomator._process_shop_phase`, one tick. The recognized card
list (`refresh_and_recognize` output) and the strategy
(`strategy_manager.execute_selection`) are passed in, matching the shared
game-state read and the polymorphic strategy dispatch; `now` is the tick
timestamp. Returns (click dispatched, updated controller state). -/
def process_shop_phase (s : AState) (gs : GameState)
    (shop_regions : List ShopRegion) (cards : List Card)
    (select : List Card → GameState → Option Card)
    (now : ℚ) (click_ok : Bool) : Bool × AState :=
  if ¬ gs.is_active then (false, s)
  else if cards.isEmpty then (false, s)
  else
    match select cards gs with
    | none => (false, s)
    | some selected_card =>
      if can_pick s now then
        let r := pick_card s shop_regions selected_card now click_ok
        (r.1, r.2.2.2)
      else (false, s)

/-! ## Claim theorems -/

/-- C8: `CardRarity.from_cost` maps each cost in `{1..5}` to the matching
tier and every other integer (0 included) to `UNKNOWN`. -/
theorem C8_from_cost_table :
    (CardRarity.from_cost 1 = .ONE_COST ∧ CardRarity.from_cost 2 = .TWO_COST ∧
     CardRarity.from_cost 3 = .THREE_COST ∧ CardRarity.from_cost 4 = .FOUR_COST ∧
     CardRarity.from_cost 5 = .FIVE_COST) ∧
    CardRarity.from_cost 0 = .UNKNOWN ∧
    ∀ c : Int, c ∉ ([1, 2, 3, 4, 5] : List Int) →
      CardRarity.from_cost c = .UNKNOWN := by
  refine ⟨by decide, by decide, ?_⟩
  intro c hc
  simp only [List.mem_cons, List.not_mem_nil, or_false, not_or] at hc
  obtain ⟨h1, h2, h3, h4, h5⟩ := hc
  simp [CardRarity.from_cost, h1, h2, h3, h4, h5]

/-- Witness for C8 at the unmapped costs 0 and 7. -/
theorem C8_from_cost_table_witness :
    CardRarity.from_cost 7 = .UNKNOWN ∧ CardRarity.from_cost (-3) = .UNKNOWN :=
  ⟨C8_from_cost_table.2.2 7 (by decide), C8_from_cost_table.2.2 (-3) (by decide)⟩

/-- C4: `Card` equality is decided by the name field alone, and cards with
equal names hash identically; a differing name makes equality false. -/
theorem C4_card_identity_by_name :
    ∀ a b : Card,
      (Card.beq a b = true ↔ a.name = b.name) ∧
      (a.name = b.name → Card.hashName a = Card.hashName b) := by
  intro a b
  constructor
  · simp [Card.beq]
  · intro h
    simp [Card.hashName, h]

/-- Witness for C4: two cards sharing the name `A` but differing in cost,
confidence, position and selected flag compare equal and hash alike. -/
theorem C4_card_identity_by_name_witness :
    Card.beq (Card.make "A" 2 [] "" 0 none)
        { Card.make "A" 3 ["mage"] "p" 1 (some (5, 6)) with is_selected := true }
      = true ∧
    Card.hashName (Card.make "A" 2 [] "" 0 none) =
      Card.hashName
        { Card.make "A" 3 ["mage"] "p" 1 (some (5, 6)) with is_selected := true } :=
  ⟨(C4_card_identity_by_name _ _).1.mpr rfl,
   (C4_card_identity_by_name _ _).2 rfl⟩

/-- C2: every lifecycle operation signals misuse by returning `false`
without mutating anything — `start` while `RUNNING` (hence no second loop
spawn), `stop` while `STOPPED`, `pause` outside `RUNNING`, `resume`
outside `PAUSED`; moreover a second consecutive `start` always returns
`false`, and `pause` while `STOPPED` returns `false`. -/
theorem C2_lifecycle_misuse :
    ∀ s : AState,
      (s.auto_picker_state = .RUNNING → start_auto_picker s = (false, s)) ∧
      (s.auto_picker_state = .STOPPED → stop_auto_picker s = (false, s)) ∧
      (s.auto_picker_state ≠ .RUNNING → pause_auto_picker s = (false, s)) ∧
      (s.auto_picker_state ≠ .PAUSED → resume_auto_picker s = (false, s)) ∧
      (start_auto_picker (start_auto_picker s).2).1 = false ∧
      (s.auto_picker_state = .STOPPED → (pause_auto_picker s).1 = false) := by
  intro s
  refine ⟨?_, ?_, ?_, ?_, ?_, ?_⟩
  · intro h; simp [start_auto_picker, h]
  · intro h; simp [stop_auto_picker, h]
  · intro h; simp [pause_auto_picker, h]
  · intro h; simp [resume_auto_picker, h]
  · by_cases h : s.auto_picker_state = .RUNNING
    · simp [start_auto_picker, h]
    · simp [start_auto_picker, h]
  · intro h; simp [pause_auto_picker, h]

/-- Witness for C2: from the freshly initialised (stopped) controller,
`stop` and `pause` fail; after a successful `start`, a second `start`
fails and leaves the state untouched. -/
theorem C2_lifecycle_misuse_witness :
    stop_auto_picker AState.init = (false, AState.init) ∧
    (pause_auto_picker AState.init).1 = false ∧
    start_auto_picker (start_auto_picker AState.init).2 =
      (false, (start_auto_picker AState.init).2) :=
  ⟨(C2_lifecycle_misuse AState.init).2.1 rfl,
   (C2_lifecycle_misuse AState.init).2.2.2.2.2 rfl,
   (C2_lifecycle_misuse (start_auto_picker AState.init).2).1 rfl⟩

/-- C10: `start_auto_picker` returns `false` exactly when the state is
`RUNNING`; started from `PAUSED` it succeeds, clears both the stop and
pause flags, enters `RUNNING`, and spawns one more monitor loop while the
previously spawned loop was never signalled to stop (the transition keeps
`stop_event` false, the only way a loop exits). -/
theorem C10_start_from_paused :
    ∀ s : AState,
      ((start_auto_picker s).1 = false ↔ s.auto_picker_state = .RUNNING) ∧
      (s.auto_picker_state = .PAUSED →
        (start_auto_picker s).1 = true ∧
        (start_auto_picker s).2.stop_event = false ∧
        (start_auto_picker s).2.pause_event = false ∧
        (start_auto_picker s).2.auto_picker_state = .RUNNING ∧
        (start_auto_picker s).2.spawned_loops = s.spawned_loops + 1) := by
  intro s
  constructor
  · by_cases h : s.auto_picker_state = .RUNNING <;> simp [start_auto_picker, h]
  · intro h
    have hne : s.auto_picker_state ≠ .RUNNING := by rw [h]; intro hc; cases hc
    simp [start_auto_picker, hne]

/-- Witness for C10 at the concrete paused controller reached by
`start` then `pause` from the initial state. -/
theorem C10_start_from_paused_witness :
    (start_auto_picker
        (pause_auto_picker (start_auto_picker AState.init).2).2).1 = true ∧
    (start_auto_picker
        (pause_auto_picker (start_auto_picker AState.init).2).2).2.spawned_loops =
      (pause_auto_picker (start_auto_picker AState.init).2).2.spawned_loops + 1 :=
  ⟨((C10_start_from_paused _).2 rfl).1,
   ((C10_start_from_paused _).2 rfl).2.2.2.2⟩

/-- C6: on an empty or zero-area source, `match_template` returns the
empty list for every matcher, loaded template and threshold — the raised
cv2 error is caught and turned into `[]`, never propagated. -/
theorem C6_empty_source_matches_nothing :
    ∀ (m : TemplateMatcher) (source : Img) (surface : Surface)
      (template_name : String) (threshold : Option ℚ),
      source.size = 0 →
      m.match_template source surface template_name threshold = [] := by
  intro m source surface template_name threshold h
  unfold TemplateMatcher.match_template
  cases hl : m.templates.lookup template_name with
  | none => rfl
  | some hw => simp [cv2_match_template, h]

/-- Witness for C6: a matcher with the template `t` loaded and a
`0 × 5` source yields no matches. -/
theorem C6_empty_source_matches_nothing_witness :
    TemplateMatcher.match_template ⟨[("t", 10, 10)], 8/10⟩ ⟨0, 5⟩
      [(((0, 0) : Nat × Nat), (9/10 : ℚ))] "t" none = [] :=
  C6_empty_source_matches_nothing ⟨[("t", 10, 10)], 8/10⟩ ⟨0, 5⟩
    [(((0, 0) : Nat × Nat), (9/10 : ℚ))] "t" none rfl

/-- The head of a filtered list is the first element satisfying the
predicate: `filter`-then-take-first equals `find?`. -/
theorem head_filter_eq_find (p : Card → Bool) :
    ∀ l : List Card,
      (match l.filter p with
       | [] => (none : Option Card)
       | c :: _ => some c) = l.find? p := by
  intro l
  induction l with
  | nil => rfl
  | cons a t ih =>
    by_cases h : p a
    · simp [List.filter_cons, List.find?, h]
    · simpa [List.filter_cons, List.find?, h] using ih

/-- C9: the target-composition strategy returns exactly the first
candidate, in candidate-list (slot) order, whose name is in the target
composition — with no scoring — and `none` when the list is empty or no
name is in the set; in particular on `[x, y]` with both names in the
target it returns `x`. -/
theorem C9_comp_building_first_match :
    ∀ (s : CompBuildingStrategy) (cards : List Card) (gs : GameState),
      s.select_card cards gs =
        cards.find? (fun c => s.target_comp.contains c.name) ∧
      (s.select_card cards gs = none ↔
        ∀ c ∈ cards, ¬ c.name ∈ s.target_comp) ∧
      ∀ x y : Card, x.name ∈ s.target_comp → y.name ∈ s.target_comp →
        s.select_card [x, y] gs = some x := by
  intro s cards gs
  have hmain : ∀ l : List Card,
      s.select_card l gs = l.find? (fun c => s.target_comp.contains c.name) := by
    intro l
    unfold CompBuildingStrategy.select_card
    by_cases hl : l.isEmpty
    · rw [List.isEmpty_iff] at hl
      simp [hl]
    · simp only [hl, if_false]
      exact head_filter_eq_find _ l
  refine ⟨hmain cards, ?_, ?_⟩
  · rw [hmain cards, List.find?_eq_none]
    simp
  · intro x y hx _hy
    rw [hmain [x, y]]
    simp [List.find?, hx]

/-- Witness for C9: both `X` and `Y` are in the target set and `X` comes
first, so `X` is selected. -/
theorem C9_comp_building_first_match_witness :
    CompBuildingStrategy.select_card ⟨["Y", "X"]⟩
      [Card.make "X" 1 [] "" 0 none, Card.make "Y" 2 [] "" 0 none]
      GameState.init = some (Card.make "X" 1 [] "" 0 none) :=
  (C9_comp_building_first_match ⟨["Y", "X"]⟩ [] GameState.init).2.2
    (Card.make "X" 1 [] "" 0 none) (Card.make "Y" 2 [] "" 0 none)
    (by decide) (by decide)

/-- Helper: `first_max` returns an element of the nonempty list it maximises over. -/
theorem first_max_mem :
    ∀ (xs : List (Card × Int)) (x : Card × Int), first_max x xs ∈ x :: xs := by
  intro xs
  induction xs with
  | nil => intro x; simp [first_max]
  | cons y ys ih =>
    intro x
    have step : first_max x (y :: ys) = first_max (if y.2 > x.2 then y else x) ys :=
      rfl
    rw [step]
    rcases List.mem_cons.mp (ih (if y.2 > x.2 then y else x)) with h1 | h2
    · rw [h1]
      by_cases hc : y.2 > x.2 <;> simp [hc]
    · simp [List.mem_cons, Or.inr (Or.inr h2)]

/-- Helper: `first_max` dominates the score of every element of the list. -/
theorem first_max_ge :
    ∀ (xs : List (Card × Int)) (x q : Card × Int),
      q ∈ x :: xs → q.2 ≤ (first_max x xs).2 := by
  intro xs
  induction xs with
  | nil =>
    intro x q hq
    rcases List.mem_cons.mp hq with h1 | h2
    · rw [h1]; simp [first_max]
    · cases h2
  | cons y ys ih =>
    intro x q hq
    have step : first_max x (y :: ys) = first_max (if y.2 > x.2 then y else x) ys :=
      rfl
    have hx : x.2 ≤ (if y.2 > x.2 then y else x).2 := by
      by_cases hc : y.2 > x.2
      · simp only [hc, if_true]; exact le_of_lt hc
      · simp [hc]
    have hy : y.2 ≤ (if y.2 > x.2 then y else x).2 := by
      by_cases hc : y.2 > x.2
      · simp [hc]
      · simp only [hc, if_false]; exact le_of_not_lt hc
    have hhead := ih (if y.2 > x.2 then y else x) _ (List.mem_cons_self _ _)
    rw [step]
    rcases List.mem_cons.mp hq with h1 | h2
    · rw [h1]; exact le_trans hx hhead
    · rcases List.mem_cons.mp h2 with hy1 | hys
      · rw [hy1]; exact le_trans hy hhead
      · exact ih _ q (List.mem_cons_of_mem _ hys)

/-- The scored-candidate list that `PriorityStrategy.select_card` builds:
candidates filtered to affordable cost, then to priority-list members,
each paired with its score. -/
def scored_list (s : PriorityStrategy) (cards : List Card) : List (Card × Int) :=
  (cards.filter (fun c => c.cost ≤ s.max_cost)).filterMap (fun card =>
    if s.get_priority_index card.name ≥ 0 then some (card, s.score card)
    else none)

/-- Membership in the scored list characterised. -/
theorem scored_list_mem (s : PriorityStrategy) (cards : List Card)
    (c : Card) (sc : Int) :
    (c, sc) ∈ scored_list s cards ↔
      c ∈ cards ∧ c.cost ≤ s.max_cost ∧
        0 ≤ s.get_priority_index c.name ∧ sc = s.score c := by
  unfold scored_list
  rw [List.mem_filterMap]
  constructor
  · rintro ⟨a, ha, hg⟩
    rw [List.mem_filter] at ha
    by_cases hidx : s.get_priority_index a.name ≥ 0
    · rw [if_pos hidx] at hg
      obtain ⟨rfl, rfl⟩ := Prod.mk.injEq .. ▸ Option.some.inj hg
      exact ⟨ha.1, by simpa using ha.2, hidx, rfl⟩
    · rw [if_neg hidx] at hg
      cases hg
  · rintro ⟨hc, hcost, hidx, rfl⟩
    exact ⟨c, List.mem_filter.mpr ⟨hc, by simpa using hcost⟩, by rw [if_pos hidx]⟩

/-- Helper: `select_card` equals the head of the stably-descending-sorted scored
list, i.e. the first maximal element of `scored_list`. -/
theorem select_card_eq_scored (s : PriorityStrategy) (cards : List Card)
    (gs : GameState) :
    s.select_card cards gs =
      (match scored_list s cards with
       | [] => none
       | x :: xs => some (first_max x xs).1) := by
  unfold PriorityStrategy.select_card scored_list
  by_cases h1 : cards.isEmpty
  · rw [List.isEmpty_iff] at h1
    subst h1
    simp
  · simp only [h1, Bool.false_eq_true, if_false]
    by_cases h2 : (cards.filter (fun c => decide (c.cost ≤ s.max_cost))).isEmpty
    · rw [List.isEmpty_iff] at h2
      simp [h2]
    · simp only [h2, Bool.false_eq_true, if_false]

/-- C1: `PriorityStrategy.select_card` first discards candidates costing
more than `max_cost` (such a candidate is never returned), scores exactly
the remaining candidates occurring in the priority list as
`(list length − rank index)` plus the `cost × 10` bonus when the
prefer-higher-cost flag is set, returns a maximal-scoring card, and
returns `none` exactly when no candidate both survives the cost filter
and occurs in the priority list; on priority list `[A, B, C]` with
candidates `A` (cost 2) and `C` (cost 1) and the flag off it returns `A`. -/
theorem C1_priority_select :
    (∀ (s : PriorityStrategy) (cards : List Card) (gs : GameState),
      (s.select_card cards gs = none ↔
        ∀ c ∈ cards, c.cost ≤ s.max_cost → s.get_priority_index c.name < 0) ∧
      (∀ c : Card, s.select_card cards gs = some c →
        c ∈ cards ∧ c.cost ≤ s.max_cost ∧ 0 ≤ s.get_priority_index c.name ∧
        ∀ d ∈ cards, d.cost ≤ s.max_cost → 0 ≤ s.get_priority_index d.name →
          s.score d ≤ s.score c) ∧
      (∀ c : Card, c.cost > s.max_cost → s.select_card cards gs ≠ some c)) ∧
    PriorityStrategy.select_card ⟨["A", "B", "C"], 5, false⟩
      [Card.make "A" 2 [] "" 0 none, Card.make "C" 1 [] "" 0 none]
      GameState.init = some (Card.make "A" 2 [] "" 0 none) := by
  constructor
  · intro s cards gs
    have hsel := select_card_eq_scored s cards gs
    have hsome : ∀ c : Card, s.select_card cards gs = some c →
        c ∈ cards ∧ c.cost ≤ s.max_cost ∧ 0 ≤ s.get_priority_index c.name ∧
        ∀ d ∈ cards, d.cost ≤ s.max_cost → 0 ≤ s.get_priority_index d.name →
          s.score d ≤ s.score c := by
      intro c hc
      rw [hsel] at hc
      cases hscored : scored_list s cards with
      | nil => rw [hscored] at hc; cases hc
      | cons x xs =>
        rw [hscored] at hc
        have hcval : (first_max x xs).1 = c := Option.some.inj hc
        have hmemfm : first_max x xs ∈ scored_list s cards := by
          rw [hscored]; exact first_max_mem xs x
        have hpair : ((first_max x xs).1, (first_max x xs).2) ∈ scored_list s cards := by
          simpa using hmemfm
        rw [hcval] at hpair
        obtain ⟨hmem, hcost, hidx, hscval⟩ := (scored_list_mem s cards c _).mp hpair
        refine ⟨hmem, hcost, hidx, ?_⟩
        intro d hd hdcost hdidx
        have hdmem : (d, s.score d) ∈ scored_list s cards :=
          (scored_list_mem s cards d _).mpr ⟨hd, hdcost, hdidx, rfl⟩
        rw [hscored] at hdmem
        have := first_max_ge xs x (d, s.score d) hdmem
        calc s.score d ≤ (first_max x xs).2 := this
          _ = s.score c := hscval
    refine ⟨?_, hsome, ?_⟩
    · rw [hsel]
      cases hscored : scored_list s cards with
      | nil =>
        simp only [true_iff]
        intro c hc hcost
        by_contra hge
        push_neg at hge
        have : (c, s.score c) ∈ scored_list s cards :=
          (scored_list_mem s cards c _).mpr ⟨hc, hcost, hge, rfl⟩
        rw [hscored] at this
        cases this
      | cons x xs =>
        simp only
        constructor
        · intro h; cases h
        · intro hall
          have hx : (x.1, x.2) ∈ scored_list s cards := by
            rw [hscored]; simp
          obtain ⟨hmem, hcost, hidx, _⟩ := (scored_list_mem s cards x.1 x.2).mp hx
          exact absurd hidx (not_le.mpr (hall x.1 hmem hcost))
    · intro c hcgt hc
      obtain ⟨_, hcost, _, _⟩ := hsome c hc
      exact absurd hcost (not_le.mpr hcgt)
  · rfl

/-- Witness for C1: on the concrete example the selected card `A`
satisfies the filter, occurs in the priority list, and maximises the
score; and a cost-3 card is never selected when `max_cost = 2`. -/
theorem C1_priority_select_witness :
    ((Card.make "A" 2 [] "" 0 none) ∈
        [Card.make "A" 2 [] "" 0 none, Card.make "C" 1 [] "" 0 none] ∧
      (Card.make "A" 2 [] "" 0 none).cost ≤ (5 : Int)) ∧
    PriorityStrategy.select_card ⟨["A", "B", "C"], 2, true⟩
        [Card.make "A" 5 [] "" 0 none] GameState.init ≠
      some (Card.make "A" 5 [] "" 0 none) :=
  ⟨by
    have h := ((C1_priority_select.1 ⟨["A", "B", "C"], 5, false⟩
      [Card.make "A" 2 [] "" 0 none, Card.make "C" 1 [] "" 0 none]
      GameState.init).2.1 (Card.make "A" 2 [] "" 0 none)
      C1_priority_select.2)
    exact ⟨h.1, h.2.1⟩,
   (C1_priority_select.1 ⟨["A", "B", "C"], 2, true⟩
      [Card.make "A" 5 [] "" 0 none] GameState.init).2.2
      (Card.make "A" 5 [] "" 0 none) (by decide)⟩

/-- A tick dispatches a click only when `_can_pick` allows it. -/
theorem dispatch_imp_can_pick
    (s : AState) (gs : GameState) (shop_regions : List ShopRegion)
    (cards : List Card) (select : List Card → GameState → Option Card)
    (now : ℚ) (click_ok : Bool) :
    (process_shop_phase s gs shop_regions cards select now click_ok).1 = true →
    can_pick s now = true := by
  intro h
  unfold process_shop_phase at h
  split at h
  · cases h
  · split at h
    · cases h
    · split at h
      · cases h
      · split at h
        · assumption
        · cases h

/-- If the cooldown forbids picking, the tick dispatches nothing. -/
theorem no_can_pick_no_dispatch
    (s : AState) (gs : GameState) (shop_regions : List ShopRegion)
    (cards : List Card) (select : List Card → GameState → Option Card)
    (now : ℚ) (click_ok : Bool) :
    can_pick s now = false →
    (process_shop_phase s gs shop_regions cards select now click_ok).1 = false := by
  intro hcp
  cases hd : (process_shop_phase s gs shop_regions cards select now click_ok).1 with
  | false => rfl
  | true =>
    have := dispatch_imp_can_pick s gs shop_regions cards select now click_ok hd
    rw [hcp] at this
    cases this

/-- Helper: a failed click leaves the controller state of `_pick_card` untouched. -/
theorem pick_card_failed (s : AState) (shop_regions : List ShopRegion)
    (card : Card) (now : ℚ) :
    (pick_card s shop_regions card now false).2.2.2 = s := by
  unfold pick_card
  dsimp only
  by_cases h : get_card_position shop_regions card = (0, 0)
  · rw [if_pos h]
  · rw [if_neg h, if_neg (by simp : ¬false = true)]

/-- Helper: `_pick_card` never touches the configured cooldown. -/
theorem pick_card_cooldown (s : AState) (shop_regions : List ShopRegion)
    (card : Card) (now : ℚ) (click_ok : Bool) :
    (pick_card s shop_regions card now click_ok).2.2.2.pick_cooldown
      = s.pick_cooldown := by
  unfold pick_card
  dsimp only
  by_cases h : get_card_position shop_regions card = (0, 0)
  · rw [if_pos h]
  · rw [if_neg h]
    by_cases hck : click_ok = true
    · rw [if_pos hck]
    · rw [if_neg hck]

/-- A dispatched `_pick_card` with a succeeding click stamps `now`. -/
theorem pick_card_success_time (s : AState) (shop_regions : List ShopRegion)
    (card : Card) (now : ℚ) :
    (pick_card s shop_regions card now true).1 = true →
    (pick_card s shop_regions card now true).2.2.2.last_pick_time = some now := by
  unfold pick_card
  dsimp only
  by_cases h : get_card_position shop_regions card = (0, 0)
  · rw [if_pos h]
    intro hfalse
    cases hfalse
  · rw [if_neg h]
    intro _
    rfl

/-- A failed click leaves the controller state entirely unchanged. -/
theorem process_click_failed
    (s : AState) (gs : GameState) (shop_regions : List ShopRegion)
    (cards : List Card) (select : List Card → GameState → Option Card)
    (now : ℚ) :
    (process_shop_phase s gs shop_regions cards select now false).2 = s := by
  unfold process_shop_phase
  split
  · rfl
  · split
    · rfl
    · split
      · rfl
      · split
        · exact pick_card_failed s shop_regions _ now
        · rfl

/-- Every tick preserves the configured cooldown. -/
theorem process_keeps_cooldown
    (s : AState) (gs : GameState) (shop_regions : List ShopRegion)
    (cards : List Card) (select : List Card → GameState → Option Card)
    (now : ℚ) (click_ok : Bool) :
    (process_shop_phase s gs shop_regions cards select now click_ok).2.pick_cooldown
      = s.pick_cooldown := by
  unfold process_shop_phase
  split
  · rfl
  · split
    · rfl
    · split
      · rfl
      · split
        · exact pick_card_cooldown s shop_regions _ now click_ok
        · rfl

/-- A dispatched and successful click advances `last_pick_time` to `now`. -/
theorem process_success_sets_time
    (s : AState) (gs : GameState) (shop_regions : List ShopRegion)
    (cards : List Card) (select : List Card → GameState → Option Card)
    (now : ℚ) :
    (process_shop_phase s gs shop_regions cards select now true).1 = true →
    (process_shop_phase s gs shop_regions cards select now true).2.last_pick_time
      = some now := by
  unfold process_shop_phase
  split
  · intro h; cases h
  · split
    · intro h; cases h
    · split
      · intro h; cases h
      · split
        · exact pick_card_success_time s shop_regions _ now
        · intro h; cases h

/-- C3: a tick dispatches a click only when there was no prior successful
pick or the elapsed time since it reaches the configured cooldown; a
failed click changes no counter and no timestamp; a successful dispatched
click sets the timestamp to the tick time; the cooldown setting survives
the tick; and after a tick whose successful pick stamped time `t1`, any
tick less than one cooldown later dispatches nothing. -/
theorem C3_cooldown_gating :
    ∀ (s : AState) (gs : GameState) (shop_regions : List ShopRegion)
      (cards : List Card) (select : List Card → GameState → Option Card)
      (now : ℚ) (click_ok : Bool),
      ((process_shop_phase s gs shop_regions cards select now click_ok).1 = true →
        s.last_pick_time = none ∨
          ∃ t, s.last_pick_time = some t ∧ now - t ≥ s.pick_cooldown) ∧
      (click_ok = false →
        (process_shop_phase s gs shop_regions cards select now click_ok).2 = s) ∧
      (click_ok = true →
        (process_shop_phase s gs shop_regions cards select now click_ok).1 = true →
        (process_shop_phase s gs shop_regions cards select now click_ok).2.last_pick_time
          = some now) ∧
      (process_shop_phase s gs shop_regions cards select now click_ok).2.pick_cooldown
        = s.pick_cooldown ∧
      (∀ (t1 now2 : ℚ) (gs2 : GameState) (regions2 : List ShopRegion)
          (cards2 : List Card) (select2 : List Card → GameState → Option Card)
          (click2 : Bool),
        (process_shop_phase s gs shop_regions cards select now click_ok).2.last_pick_time
          = some t1 →
        now2 - t1 < s.pick_cooldown →
        (process_shop_phase
            (process_shop_phase s gs shop_regions cards select now click_ok).2
            gs2 regions2 cards2 select2 now2 click2).1 = false) := by
  intro s gs shop_regions cards select now click_ok
  refine ⟨?_, ?_, ?_, process_keeps_cooldown .., ?_⟩
  · intro h
    have hcp := dispatch_imp_can_pick s gs shop_regions cards select now click_ok h
    unfold can_pick at hcp
    cases hlt : s.last_pick_time with
    | none => exact Or.inl rfl
    | some t =>
      rw [hlt] at hcp
      exact Or.inr ⟨t, rfl, of_decide_eq_true hcp⟩
  · intro h
    subst h
    exact process_click_failed s gs shop_regions cards select now
  · intro h
    subst h
    exact process_success_sets_time s gs shop_regions cards select now
  · intro t1 now2 gs2 regions2 cards2 select2 click2 h1 h2
    apply no_can_pick_no_dispatch
    unfold can_pick
    rw [h1, process_keeps_cooldown]
    exact decide_eq_false (not_le.mpr h2)

/-- Witness for C3: a fresh controller (never picked, default cooldown
`0.5`) with an active shop, one positioned card, head-of-list strategy
and a succeeding click dispatches at time `0` and stamps the time; a
second identical tick at time `0.1 < 0.5` dispatches nothing. -/
theorem C3_cooldown_gating_witness :
    (process_shop_phase
        (process_shop_phase AState.init GameState.init.set_shop_phase []
          [Card.make "A" 2 [] "" 0 (some (100, 100))]
          (fun l _ => l.head?) 0 true).2
        GameState.init.set_shop_phase []
        [Card.make "A" 2 [] "" 0 (some (100, 100))]
        (fun l _ => l.head?) (1/10) true).1 = false :=
  (C3_cooldown_gating AState.init GameState.init.set_shop_phase []
      [Card.make "A" 2 [] "" 0 (some (100, 100))]
      (fun l _ => l.head?) 0 true).2.2.2.2 0 (1/10)
    GameState.init.set_shop_phase []
    [Card.make "A" 2 [] "" 0 (some (100, 100))]
    (fun l _ => l.head?) true
    ((C3_cooldown_gating AState.init GameState.init.set_shop_phase []
        [Card.make "A" 2 [] "" 0 (some (100, 100))]
        (fun l _ => l.head?) 0 true).2.2.1 rfl (by decide))
    (of_decide_eq_true (by with_unfolding_all rfl))

/-- Counterexample to C5 as stated: with a per-call threshold of `0`
supplied, the claim demands every location scoring `≥ 0` be returned, but
the Python fallback `threshold or self.default_threshold` treats the
supplied `0` as falsy and uses the default `0.8`, so the location scoring
`0.5` is not returned. -/
theorem C5_zero_threshold_counterexample :
    ((((0, 0) : Nat × Nat), (1/2 : ℚ)) ∈
        ([(((0, 0) : Nat × Nat), (1/2 : ℚ))] : Surface) ∧
      (1/2 : ℚ) ≥ 0) ∧
    TemplateMatcher.match_template ⟨[("t", 10, 10)], 8/10⟩ ⟨100, 100⟩
      [(((0, 0) : Nat × Nat), (1/2 : ℚ))] "t" (some 0) = [] :=
  ⟨⟨List.mem_singleton.mpr rfl, of_decide_eq_true (by with_unfolding_all rfl)⟩,
   of_decide_eq_true (by with_unfolding_all rfl)⟩

/-- C5 (amended): for a loaded template and a nonempty source,
`match_template` returns exactly the surface locations whose score
reaches the effective threshold, where the effective threshold is the
per-call threshold whenever a *nonzero* one is supplied and the default
threshold (0.8 under default construction) when the per-call threshold is
omitted or zero (Python falsy fallback). -/
theorem C5_threshold_amended :
    (∀ (m : TemplateMatcher) (source : Img) (surface : Surface)
       (tname : String) (threshold : Option ℚ) (hw : Nat × Nat),
      m.templates.lookup tname = some hw → source.size ≠ 0 →
      ∀ r : MatchResult,
        (r ∈ m.match_template source surface tname threshold ↔
          ∃ p ∈ surface,
            p.2 ≥ (match threshold with
                   | none => m.default_threshold
                   | some v => if v = 0 then m.default_threshold else v) ∧
            r = mk_match tname hw.1 hw.2 p)) ∧
    TemplateMatcher.init_default.default_threshold = 8/10 := by
  constructor
  · intro m source surface tname threshold hw hlook hsz r
    unfold TemplateMatcher.match_template
    rw [hlook]
    unfold cv2_match_template
    rw [if_neg hsz]
    dsimp only
    simp only [List.mem_map, List.mem_filter]
    constructor
    · rintro ⟨p, ⟨hp, hge⟩, rfl⟩
      exact ⟨p, hp, of_decide_eq_true hge, rfl⟩
    · rintro ⟨p, hp, hge, rfl⟩
      exact ⟨p, ⟨hp, decide_eq_true hge⟩, rfl⟩
  · rfl

/-- Witness for the amended C5: a supplied nonzero per-call threshold
`0.5` overrides the default `0.8`, so a location scoring `0.9 ≥ 0.5` is
returned. -/
theorem C5_threshold_amended_witness :
    mk_match "t" 10 10 (((0, 0) : Nat × Nat), (9/10 : ℚ)) ∈
      TemplateMatcher.match_template ⟨[("t", 10, 10)], 8/10⟩ ⟨100, 100⟩
        [(((0, 0) : Nat × Nat), (9/10 : ℚ))] "t" (some (1/2)) :=
  (C5_threshold_amended.1 ⟨[("t", 10, 10)], 8/10⟩ ⟨100, 100⟩
      [(((0, 0) : Nat × Nat), (9/10 : ℚ))] "t" (some (1/2)) (10, 10) rfl
      (by decide) (mk_match "t" 10 10 (((0, 0) : Nat × Nat), (9/10 : ℚ)))).mpr
    ⟨(((0, 0) : Nat × Nat), (9/10 : ℚ)), List.mem_singleton.mpr rfl,
     of_decide_eq_true (by with_unfolding_all rfl), rfl⟩

/-- A card built by `_recognize_single_card` is freshly constructed:
unselected and stamped with its slot index. -/
theorem recognize_single_card_fresh (m : TemplateMatcher) (img : Img)
    (sf : String → Surface) (i : Nat) (ec : Int) (c : Card) :
    recognize_single_card m img sf i ec = some c →
    c.is_selected = false ∧ c.shop_index = some i := by
  intro h
  unfold recognize_single_card at h
  dsimp only at h
  split at h
  · injection h with h2
    subst h2
    exact ⟨rfl, rfl⟩
  · cases h

/-- Every card output by the slot loop comes from a nonempty slot capture
whose recognizer succeeded, repositioned to the slot centre. -/
theorem recognize_slots_mem (m : TemplateMatcher) (capture : Nat → Img)
    (surfaces : Nat → String → Surface) (est_cost : Nat → Int) :
    ∀ (l : List (Nat × ShopRegion)) (c : Card),
      c ∈ (recognize_slots m capture surfaces est_cost l).1 →
      ∃ i r c0, (i, r) ∈ l ∧ (capture i).size ≠ 0 ∧
        recognize_single_card m (capture i) (surfaces i) i (est_cost i)
          = some c0 ∧
        c = { c0 with position := region_center r } := by
  intro l
  induction l with
  | nil =>
    intro c hc
    cases hc
  | cons hd tl ih =>
    intro c hc
    obtain ⟨i, r⟩ := hd
    unfold recognize_slots at hc
    dsimp only at hc
    by_cases hsz : (capture i).size = 0
    · rw [if_pos hsz] at hc
      obtain ⟨j, r2, c0, hmem, hsz2, hrec, hceq⟩ := ih c hc
      exact ⟨j, r2, c0, List.mem_cons_of_mem _ hmem, hsz2, hrec, hceq⟩
    · rw [if_neg hsz] at hc
      cases hrec : recognize_single_card m (capture i) (surfaces i) i (est_cost i) with
      | some card =>
        rw [hrec] at hc
        dsimp only at hc
        rcases List.mem_cons.mp hc with h1 | h2
        · exact ⟨i, r, card, List.mem_cons_self _ _, hsz, hrec, h1⟩
        · obtain ⟨j, r2, c0, hmem, hsz2, hrec2, hceq⟩ := ih c h2
          exact ⟨j, r2, c0, List.mem_cons_of_mem _ hmem, hsz2, hrec2, hceq⟩
      | none =>
        rw [hrec] at hc
        obtain ⟨j, r2, c0, hmem, hsz2, hrec2, hceq⟩ := ih c hc
        exact ⟨j, r2, c0, List.mem_cons_of_mem _ hmem, hsz2, hrec2, hceq⟩

/-- A slot whose capture is empty or whose recognizer found no confident
match contributes no card: its index is absent from the output. -/
theorem recognize_slots_absent (m : TemplateMatcher) (capture : Nat → Img)
    (surfaces : Nat → String → Surface) (est_cost : Nat → Int)
    (l : List (Nat × ShopRegion)) (i : Nat) :
    ((capture i).size = 0 ∨
      recognize_single_card m (capture i) (surfaces i) i (est_cost i) = none) →
    ∀ c ∈ (recognize_slots m capture surfaces est_cost l).1,
      c.shop_index ≠ some i := by
  intro hno c hc hcontra
  obtain ⟨j, r, c0, _, hsz, hrec, rfl⟩ :=
    recognize_slots_mem m capture surfaces est_cost l c hc
  have hfresh := recognize_single_card_fresh m (capture j) (surfaces j) j
    (est_cost j) c0 hrec
  have hji : c0.shop_index = some i := hcontra
  rw [hfresh.2] at hji
  obtain rfl := Option.some.inj hji
  rcases hno with h | h
  · exact hsz h
  · rw [h] at hrec
    cases hrec

/-- In the Shopping phase with a nonempty screenshot,
`refresh_and_recognize` computes the slot-loop output and installs it
wholesale into the game state. -/
theorem refresh_shopping_eq (m : TemplateMatcher)
    (shop_regions : List ShopRegion) (gs : GameState) (detect_shot : Img)
    (gold_frac : ℚ) (screenshot : Img) (capture : Nat → Img)
    (surfaces : Nat → String → Surface) (est_cost : Nat → Int) :
    (detect_shop_phase gs detect_shot gold_frac).2.phase = GamePhase.SHOPPING →
    screenshot.size ≠ 0 →
    refresh_and_recognize m shop_regions gs detect_shot gold_frac screenshot
        capture surfaces est_cost
      = ((recognize_slots m capture surfaces est_cost shop_regions.enum).1,
         { (detect_shop_phase gs detect_shot gold_frac).2 with
           available_cards :=
             (recognize_slots m capture surfaces est_cost shop_regions.enum).1,
           shop_slots :=
             (recognize_slots m capture surfaces est_cost shop_regions.enum).2 }) := by
  intro hph hsz
  unfold refresh_and_recognize
  dsimp only
  rw [if_pos hph]
  unfold recognize_cards
  rw [if_neg hsz]

/-- C7: per-slot recognition happens only when the phase detected at the
start of the pass is Shopping (otherwise the pass returns `[]` and leaves
the card list untouched); a completed Shopping pass replaces
`available_cards` wholesale with the freshly built cards — the output is
independent of whatever card list the previous cycle left (so stale cards
never survive), every produced card is unselected, and a slot without a
confident match contributes no card. -/
theorem C7_wholesale_replacement :
    ∀ (m : TemplateMatcher) (shop_regions : List ShopRegion) (gs : GameState)
      (detect_shot : Img) (gold_frac : ℚ) (screenshot : Img)
      (capture : Nat → Img) (surfaces : Nat → String → Surface)
      (est_cost : Nat → Int),
      ((detect_shop_phase gs detect_shot gold_frac).2.phase ≠ GamePhase.SHOPPING →
        refresh_and_recognize m shop_regions gs detect_shot gold_frac screenshot
            capture surfaces est_cost
          = ([], (detect_shop_phase gs detect_shot gold_frac).2)) ∧
      ((detect_shop_phase gs detect_shot gold_frac).2.phase = GamePhase.SHOPPING →
       screenshot.size ≠ 0 →
        (refresh_and_recognize m shop_regions gs detect_shot gold_frac screenshot
            capture surfaces est_cost).2.available_cards
          = (refresh_and_recognize m shop_regions gs detect_shot gold_frac
              screenshot capture surfaces est_cost).1 ∧
        (∀ gsB : GameState,
          (detect_shop_phase gsB detect_shot gold_frac).2.phase
              = GamePhase.SHOPPING →
          (refresh_and_recognize m shop_regions gsB detect_shot gold_frac
              screenshot capture surfaces est_cost).1
            = (refresh_and_recognize m shop_regions gs detect_shot gold_frac
                screenshot capture surfaces est_cost).1) ∧
        (∀ c ∈ (refresh_and_recognize m shop_regions gs detect_shot gold_frac
            screenshot capture surfaces est_cost).1, c.is_selected = false) ∧
        (∀ i : Nat,
          ((capture i).size = 0 ∨
            recognize_single_card m (capture i) (surfaces i) i (est_cost i)
              = none) →
          ∀ c ∈ (refresh_and_recognize m shop_regions gs detect_shot gold_frac
              screenshot capture surfaces est_cost).1,
            c.shop_index ≠ some i)) := by
  intro m shop_regions gs detect_shot gold_frac screenshot capture surfaces est_cost
  constructor
  · intro h
    unfold refresh_and_recognize
    dsimp only
    rw [if_neg h]
  · intro hph hsz
    rw [refresh_shopping_eq m shop_regions gs detect_shot gold_frac screenshot
      capture surfaces est_cost hph hsz]
    refine ⟨rfl, ?_, ?_, ?_⟩
    · intro gsB hB
      rw [refresh_shopping_eq m shop_regions gsB detect_shot gold_frac screenshot
        capture surfaces est_cost hB hsz]
    · intro c hc
      obtain ⟨j, r, c0, _, _, hrec, rfl⟩ := recognize_slots_mem m capture
        surfaces est_cost shop_regions.enum c hc
      have hfresh := recognize_single_card_fresh m (capture j) (surfaces j) j
        (est_cost j) c0 hrec
      exact hfresh.1
    · intro i hno c hc
      exact recognize_slots_absent m capture surfaces est_cost
        shop_regions.enum i hno c hc

/-- Witness for C7: with a detected gold fraction of `1` (> 0.02) the
phase is Shopping; the single slot yields a confident `0.9` match, and
the resulting game state holds exactly the freshly recognized card list. -/
theorem C7_wholesale_replacement_witness :
    (refresh_and_recognize ⟨[("t", 2, 2)], 8/10⟩ [⟨0, 0, 10, 10⟩]
        GameState.init ⟨10, 10⟩ 1 ⟨10, 10⟩ (fun _ => ⟨10, 10⟩)
        (fun _ _ => [(((0, 0) : Nat × Nat), (9/10 : ℚ))])
        (fun _ => 1)).2.available_cards
      = (refresh_and_recognize ⟨[("t", 2, 2)], 8/10⟩ [⟨0, 0, 10, 10⟩]
          GameState.init ⟨10, 10⟩ 1 ⟨10, 10⟩ (fun _ => ⟨10, 10⟩)
          (fun _ _ => [(((0, 0) : Nat × Nat), (9/10 : ℚ))])
          (fun _ => 1)).1 :=
  ((C7_wholesale_replacement ⟨[("t", 2, 2)], 8/10⟩ [⟨0, 0, 10, 10⟩]
      GameState.init ⟨10, 10⟩ 1 ⟨10, 10⟩ (fun _ => ⟨10, 10⟩)
      (fun _ _ => [(((0, 0) : Nat × Nat), (9/10 : ℚ))])
      (fun _ => 1)).2 (of_decide_eq_true (by with_unfolding_all rfl))
    (by decide)).1

end TFT
